import Mathlib

/-!
Verification development for the SSH tunnel manager
(`ssh_tunnel_manager_app.py`).

The tunnel lifecycle controller (`TunnelManager`), the bandwidth monitor
(`BandwidthMonitor`), the reconnect scheduler and the minute-tick schedule
evaluator are embedded shallowly.  Pure computations (command construction,
backoff arithmetic, time-window comparison) become Lean functions; the
stateful controller together with its per-attempt monitor threads becomes a
step relation on an explicit system state.  Each monitor thread has two
blocking points in the source (`time.sleep(1)` and
`tunnel_process.communicate()`), so it is modelled with two atomic steps
(`monitorWake`, `monitorResume`) that may interleave with the other
operations, exactly as the daemon thread in the source interleaves with the
Qt main thread.  Real time is abstracted: timers are recorded as armed
intervals, and timer expiry / schedule ticks / process exits are explicit
environment steps.
-/

namespace SSHTunnel

/-- Connection states, from `class ConnectionState` (values 0..3). -/
inductive ConnectionState
  | DISCONNECTED
  | CONNECTING
  | CONNECTED
  | ERROR
deriving DecidableEq, Repr

/-- A connection-history entry, from `class ConnectionEvent`.  The wall-clock
timestamp is not modelled; event type and details are kept verbatim. -/
structure ConnectionEvent where
  event_type : String
  details : String
deriving DecidableEq, Repr

/-- The `settings` dictionary of `TunnelManager.__init__`.  `QTime` values are
modelled as minutes since midnight; `QTime` comparison on hh:mm values is
ordinary numeric comparison on those minutes. -/
structure Settings where
  host : String
  port : Nat
  username : String
  key_path : String
  local_port : Nat
  remote_port : Nat
  auto_reconnect : Bool
  scheduled_connect : Bool
  connect_time : Nat
  disconnect_time : Nat
deriving DecidableEq, Repr

/-- The defaults assigned in `TunnelManager.__init__`. -/
def defaultSettings : Settings :=
  { host := ""
    port := 22
    username := ""
    key_path := ""
    local_port := 8096
    remote_port := 8096
    auto_reconnect := true
    scheduled_connect := false
    connect_time := 8 * 60
    disconnect_time := 22 * 60 }

/-- State of `class BandwidthMonitor`: the `running` flag, whether the
1-second `QTimer` is armed, and the trace of `bandwidth_updated` signal
emissions (upload KB/s, download KB/s), oldest first. -/
structure BandwidthMonitor where
  running : Bool
  timer_active : Bool
  emitted : List (ℚ × ℚ)
deriving DecidableEq, Repr

namespace BandwidthMonitor

/-- `BandwidthMonitor.start_monitoring`: sets `running`, starts the 1 s timer.
The `port` argument is accepted and unused, as in the source. -/
def start_monitoring (bw : BandwidthMonitor) (_port : Nat) : BandwidthMonitor :=
  { bw with running := true, timer_active := true }

/-- `BandwidthMonitor.stop_monitoring`: clears `running`, stops the timer and
emits a single `(0, 0)` pair. -/
def stop_monitoring (bw : BandwidthMonitor) : BandwidthMonitor :=
  { bw with running := false, timer_active := false,
            emitted := bw.emitted ++ [(0, 0)] }

/-- The source's constant placeholder rate `upload = download = 0.1` KB/s,
written as the exact rational 1/10 (see `placeholderRate_eq`). -/
def placeholderRate : ℚ := mkRat 1 10

/-- `BandwidthMonitor.update_bandwidth` (one timer tick): emits the constant
pair `(0.1, 0.1)` while `running`, `(0, 0)` otherwise. -/
def update_bandwidth (bw : BandwidthMonitor) : BandwidthMonitor :=
  if bw.running then
    { bw with emitted := bw.emitted ++ [(placeholderRate, placeholderRate)] }
  else
    { bw with emitted := bw.emitted ++ [(0, 0)] }

end BandwidthMonitor

/-- The modelled placeholder rate is exactly the source's literal `0.1`. -/
theorem placeholderRate_eq : BandwidthMonitor.placeholderRate = (0.1 : ℚ) := by
  rw [BandwidthMonitor.placeholderRate, Rat.mkRat_eq_div]
  norm_num

/-- Status of a spawned OS process: `poll()` returns nothing while running and
the exit code once exited. -/
inductive ProcStatus
  | running
  | exited (code : Int)
deriving DecidableEq, Repr

/-- A spawned process: the argument vector and environment overrides passed to
`subprocess.Popen`, and its current status.  Process identity is its index in
the system's process table. -/
structure Proc where
  argv : List String
  env_overrides : List (String × String)
  status : ProcStatus
deriving DecidableEq, Repr

/-- Phase of one `_monitor_tunnel` daemon thread: `sleeping` models the thread
inside `time.sleep(1)`; `waiting pid` models the thread blocked in
`tunnel_process.communicate()` on process `pid`.  Finished threads are removed
from the system's monitor list. -/
inductive MonPhase
  | sleeping
  | waiting (pid : Nat)
deriving DecidableEq, Repr

/-- The mutable fields of `TunnelManager`.  `reconnect_timer` is `some ms`
while the reconnect `QTimer` is armed with interval `ms` milliseconds. -/
structure Manager where
  tunnel_process : Option Nat
  state : ConnectionState
  reconnect_attempts : Nat
  max_reconnect_attempts : Nat
  reconnect_delay : Nat
  reconnect_timer : Option Nat
  bandwidth_monitor : BandwidthMonitor
  settings : Settings
  connection_history : List ConnectionEvent
deriving DecidableEq, Repr

/-- Whole-system state: the controller, the table of all processes ever
spawned (index = pid), and the live monitor threads. -/
structure Sys where
  mgr : Manager
  procs : List Proc
  monitors : List MonPhase
deriving DecidableEq, Repr

/-- `TunnelManager.__init__` with the given settings. -/
def initManager (s : Settings) : Manager :=
  { tunnel_process := none
    state := ConnectionState.DISCONNECTED
    reconnect_attempts := 0
    max_reconnect_attempts := 5
    reconnect_delay := 5
    reconnect_timer := none
    bandwidth_monitor := { running := false, timer_active := false, emitted := [] }
    settings := s
    connection_history := [] }

/-- Fresh system: no process ever spawned, no monitor thread. -/
def initSys (s : Settings) : Sys :=
  { mgr := initManager s, procs := [], monitors := [] }

/-- `TunnelManager.add_connection_event`: append to the history (the
`connection_event` signal carries the same record). -/
def add_connection_event (m : Manager) (event_type details : String) : Manager :=
  { m with connection_history :=
      m.connection_history ++ [{ event_type := event_type, details := details }] }

/-- The `cmd` list built in `TunnelManager.start_tunnel` (lines 199-211). -/
def build_cmd (s : Settings) : List String :=
  ["ssh",
   "-i", s.key_path,
   "-R", toString s.remote_port ++ ":localhost:" ++ toString s.local_port,
   "-p", toString s.port,
   "-N",
   "-o", "ServerAliveInterval=30",
   "-o", "ServerAliveCountMax=3",
   "-o", "BatchMode=yes",
   "-o", "PasswordAuthentication=no",
   "-o", "StrictHostKeyChecking=accept-new",
   s.username ++ "@" ++ s.host]

/-- The two environment overrides set before `subprocess.Popen`
(`env["SSH_ASKPASS"] = ""`, `env["DISPLAY"] = ""`). -/
def env_overrides : List (String × String) :=
  [("SSH_ASKPASS", ""), ("DISPLAY", "")]

/-- `TunnelManager.schedule_reconnect`: at the attempt ceiling it only records
an `Error` event; otherwise it increments the counter, computes the
exponential-backoff delay and arms the reconnect timer (milliseconds). -/
def schedule_reconnect (m : Manager) : Manager :=
  if m.reconnect_attempts ≥ m.max_reconnect_attempts then
    add_connection_event m "Error" "Maximum reconnection attempts reached"
  else
    let attempts := m.reconnect_attempts + 1
    let delay := m.reconnect_delay * 2 ^ (attempts - 1)
    let m1 := add_connection_event { m with reconnect_attempts := attempts }
      "Reconnecting"
      ("Attempt " ++ toString attempts ++ " scheduled in " ++ toString delay ++ " seconds")
    { m1 with reconnect_timer := some (delay * 1000) }

/-- `TunnelManager.start_tunnel`.  `spawnOk` tells whether `subprocess.Popen`
succeeds (the `except` branch of the source handles a raise).  On a successful
spawn a new process is appended to the table, a monitor thread is created in
its sleeping phase, and bandwidth monitoring starts immediately. -/
def start_tunnel (sys : Sys) (spawnOk : Bool) : Sys :=
  let m := sys.mgr
  if m.state = ConnectionState.CONNECTED ∨ m.state = ConnectionState.CONNECTING then
    sys
  else
    let m1 := { m with state := ConnectionState.CONNECTING }
    let m2 := add_connection_event m1 "Connecting" "Attempting to establish tunnel"
    if m2.settings.host = "" ∨ m2.settings.username = "" ∨ m2.settings.key_path = "" then
      let m3 := { m2 with state := ConnectionState.ERROR }
      let m4 := add_connection_event m3 "Error" "Missing required connection settings"
      { sys with mgr := m4 }
    else if spawnOk then
      let pid := sys.procs.length
      let procs := sys.procs ++
        [{ argv := build_cmd m2.settings, env_overrides := env_overrides,
           status := ProcStatus.running }]
      let m3 := { m2 with tunnel_process := some pid }
      let m4 := { m3 with bandwidth_monitor :=
                    m3.bandwidth_monitor.start_monitoring m3.settings.local_port }
      { mgr := m4, procs := procs, monitors := sys.monitors ++ [MonPhase.sleeping] }
    else
      let m3 := { m2 with state := ConnectionState.ERROR }
      let m4 := add_connection_event m3 "Error" "Failed to start tunnel: spawn error"
      { sys with mgr := m4 }

/-- `TunnelManager.stop_tunnel`: no-op from Disconnected; otherwise stops the
reconnect timer, terminates the held process if it is still running (modelled
with exit code -15), clears the handle, moves to Disconnected, records the
event and stops bandwidth monitoring. -/
def stop_tunnel (sys : Sys) : Sys :=
  let m := sys.mgr
  if m.state = ConnectionState.DISCONNECTED then
    sys
  else
    let m1 := { m with reconnect_timer := none }
    let procs :=
      match m1.tunnel_process with
      | some pid =>
        match sys.procs[pid]? with
        | some p =>
          if p.status = ProcStatus.running then
            sys.procs.set pid { p with status := ProcStatus.exited (-15) }
          else sys.procs
        | none => sys.procs
      | none => sys.procs
    let m2 := { m1 with tunnel_process := none, state := ConnectionState.DISCONNECTED }
    let m3 := add_connection_event m2 "Disconnected" "Tunnel stopped manually"
    let m4 := { m3 with bandwidth_monitor := m3.bandwidth_monitor.stop_monitoring }
    { mgr := m4, procs := procs, monitors := sys.monitors }

/-- Monitor thread `i` returning from `time.sleep(1)` in `_monitor_tunnel`:
it re-reads `tunnel_process` (an `AttributeError` kills only the thread when
the handle is gone), polls it, and either runs the early-failure branch
(lines 256-267, with `stderrText` the text read from the pipe) or the
success branch (lines 269-277), entering `communicate()` on the polled
process. -/
def monitor_wake (sys : Sys) (i : Nat) (stderrText : String) : Sys :=
  match sys.monitors[i]? with
  | some MonPhase.sleeping =>
    match sys.mgr.tunnel_process with
    | none => { sys with monitors := sys.monitors.eraseIdx i }
    | some pid =>
      match sys.procs[pid]? with
      | some p =>
        match p.status with
        | ProcStatus.exited _ =>
          let m := sys.mgr
          let m1 := { m with state := ConnectionState.ERROR }
          let m2 := add_connection_event m1 "Error" ("Tunnel process failed: " ++ stderrText)
          let m3 := if m2.settings.auto_reconnect then schedule_reconnect m2 else m2
          { sys with mgr := m3, monitors := sys.monitors.eraseIdx i }
        | ProcStatus.running =>
          let m := sys.mgr
          let m1 := { m with state := ConnectionState.CONNECTED }
          let m2 := add_connection_event m1 "Connected" "Tunnel established successfully"
          let m3 := { m2 with reconnect_attempts := 0 }
          { sys with mgr := m3, monitors := sys.monitors.set i (MonPhase.waiting pid) }
      | none => sys
  | _ => sys

/-- How `tunnel_process.returncode` prints inside the f-string of the
connection-lost branch: `None` while running, the code once exited. -/
def returncodeStr : ProcStatus → String
  | ProcStatus.running => "None"
  | ProcStatus.exited c => toString c

/-- Monitor thread `i` returning from `communicate()` (enabled once its
awaited process has exited): lines 279-294.  The connection-lost branch runs
only when the controller still reads `CONNECTED`; it re-reads the current
`tunnel_process` for the exit-code text (an `AttributeError` on a cleared
handle kills only the thread). -/
def monitor_resume (sys : Sys) (i : Nat) : Sys :=
  match sys.monitors[i]? with
  | some (MonPhase.waiting w) =>
    match sys.procs[w]? with
    | some p =>
      match p.status with
      | ProcStatus.exited _ =>
        if sys.mgr.state = ConnectionState.CONNECTED then
          match sys.mgr.tunnel_process with
          | some q =>
            let rc := match sys.procs[q]? with
                      | some pq => returncodeStr pq.status
                      | none => "None"
            let m := sys.mgr
            let m1 := { m with state := ConnectionState.DISCONNECTED }
            let m2 := add_connection_event m1 "Disconnected" ("Connection lost. Exit code: " ++ rc)
            let m3 := { m2 with bandwidth_monitor := m2.bandwidth_monitor.stop_monitoring }
            let m4 := if m3.settings.auto_reconnect then schedule_reconnect m3 else m3
            { sys with mgr := m4, monitors := sys.monitors.eraseIdx i }
          | none => { sys with monitors := sys.monitors.eraseIdx i }
        else
          { sys with monitors := sys.monitors.eraseIdx i }
      | ProcStatus.running => sys
    | none => sys
  | _ => sys

/-- `TunnelManager.check_schedule`, evaluated at `current_time` (minutes since
midnight).  `spawnOk` is threaded to a `start_tunnel` it may issue. -/
def check_schedule (sys : Sys) (current_time : Nat) (spawnOk : Bool) : Sys :=
  let s := sys.mgr.settings
  if s.scheduled_connect = false then
    sys
  else
    if s.connect_time < s.disconnect_time then
      if s.connect_time ≤ current_time ∧ current_time < s.disconnect_time ∧
          sys.mgr.state = ConnectionState.DISCONNECTED then
        start_tunnel sys spawnOk
      else if (current_time < s.connect_time ∨ s.disconnect_time ≤ current_time) ∧
          sys.mgr.state = ConnectionState.CONNECTED then
        stop_tunnel sys
      else sys
    else
      if (s.connect_time ≤ current_time ∨ current_time < s.disconnect_time) ∧
          sys.mgr.state = ConnectionState.DISCONNECTED then
        start_tunnel sys spawnOk
      else if s.disconnect_time ≤ current_time ∧ current_time < s.connect_time ∧
          sys.mgr.state = ConnectionState.CONNECTED then
        stop_tunnel sys
      else sys

/-- `TunnelManager.attempt_reconnect` (reconnect timer slot): stops the timer
and calls `start_tunnel`. -/
def attempt_reconnect (sys : Sys) (spawnOk : Bool) : Sys :=
  start_tunnel { sys with mgr := { sys.mgr with reconnect_timer := none } } spawnOk

/-- One atomic step of the system: a controller entry point, a monitor-thread
resumption, a timer expiry, a schedule or bandwidth tick, or a spontaneous
process exit (environment). -/
inductive Step
  | start (spawnOk : Bool)
  | stop
  | monitorWake (i : Nat) (stderrText : String)
  | monitorResume (i : Nat)
  | timerFire (spawnOk : Bool)
  | scheduleTick (now : Nat) (spawnOk : Bool)
  | bandwidthTick
  | procExit (pid : Nat) (code : Int)
deriving DecidableEq, Repr

/-- Step semantics.  `timerFire` is enabled only while the reconnect timer is
armed; `bandwidthTick` only while the bandwidth timer is armed; `procExit`
only for a currently running process; steps that are not enabled leave the
system unchanged. -/
def step (sys : Sys) : Step → Sys
  | Step.start ok => start_tunnel sys ok
  | Step.stop => stop_tunnel sys
  | Step.monitorWake i d => monitor_wake sys i d
  | Step.monitorResume i => monitor_resume sys i
  | Step.timerFire ok =>
    match sys.mgr.reconnect_timer with
    | some _ => attempt_reconnect sys ok
    | none => sys
  | Step.scheduleTick now ok => check_schedule sys now ok
  | Step.bandwidthTick =>
    if sys.mgr.bandwidth_monitor.timer_active then
      { sys with mgr := { sys.mgr with
          bandwidth_monitor := sys.mgr.bandwidth_monitor.update_bandwidth } }
    else sys
  | Step.procExit pid code =>
    match sys.procs[pid]? with
    | some p =>
      if p.status = ProcStatus.running then
        { sys with procs := sys.procs.set pid { p with status := ProcStatus.exited code } }
      else sys
    | none => sys

/-- Run a list of steps from a start state. -/
def run (s0 : Sys) (tr : List Step) : Sys :=
  tr.foldl step s0

/-- Number of live (still running) SSH client processes. -/
def liveCount (sys : Sys) : Nat :=
  (sys.procs.filter (fun p => decide (p.status = ProcStatus.running))).length

/-- A valid configuration used by the concrete executions below. -/
def testSettings : Settings :=
  { defaultSettings with
      host := "example.com"
      username := "alice"
      key_path := "/home/alice/.ssh/id_ed25519" }

/-- Valid configuration with automatic reconnection turned off. -/
def noReconnectSettings : Settings :=
  { testSettings with auto_reconnect := false }

/-- Configuration whose private-key path is empty (validation must fail). -/
def invalidKeySettings : Settings :=
  { testSettings with key_path := "" }

/-- Valid configuration with the overnight schedule window 22:00 → 08:00. -/
def overnightSettings : Settings :=
  { testSettings with
      scheduled_connect := true
      connect_time := 22 * 60
      disconnect_time := 8 * 60 }

/-- The stale-monitor interleaving: attempt 1 connects, is stopped manually,
attempt 2 connects, and only then does attempt 1's monitor thread return from
`communicate()`; finally a further `start()` runs.  Every step is an entry
point or a blocking-point resumption of the source program. -/
def raceTrace : List Step :=
  [Step.start true, Step.monitorWake 0 "", Step.stop, Step.start true,
   Step.monitorWake 1 "", Step.monitorResume 0, Step.start true]

/-- System right after a valid `start()` (process spawned, grace window
still running). -/
def sysConnecting : Sys :=
  run (initSys testSettings) [Step.start true]

/-- System after a valid `start()` whose process survived the grace window. -/
def sysConnected : Sys :=
  run (initSys testSettings) [Step.start true, Step.monitorWake 0 ""]

/-- Connected system under the overnight schedule window. -/
def sysOvernight : Sys :=
  run (initSys overnightSettings) [Step.start true, Step.monitorWake 0 ""]

/-- The process record produced by spawning with `testSettings`. -/
def spawnedProc : Proc :=
  { argv := build_cmd testSettings, env_overrides := env_overrides,
    status := ProcStatus.running }

/-- Manager at the reconnection-attempt ceiling. -/
def maxedManager : Manager :=
  { initManager testSettings with reconnect_attempts := 5 }

/-- System at the reconnection-attempt ceiling. -/
def maxedSys : Sys :=
  { initSys testSettings with mgr := maxedManager }

/-! ### Helper lemmas (frame facts about the reconnect-attempt counter) -/

theorem start_tunnel_attempts (sys : Sys) (ok : Bool) :
    (start_tunnel sys ok).mgr.reconnect_attempts = sys.mgr.reconnect_attempts := by
  simp only [start_tunnel, add_connection_event, BandwidthMonitor.start_monitoring]
  split_ifs <;> rfl

theorem stop_tunnel_attempts (sys : Sys) :
    (stop_tunnel sys).mgr.reconnect_attempts = sys.mgr.reconnect_attempts := by
  simp only [stop_tunnel, add_connection_event, BandwidthMonitor.stop_monitoring]
  split_ifs <;> rfl

theorem check_schedule_attempts (sys : Sys) (now : Nat) (ok : Bool) :
    (check_schedule sys now ok).mgr.reconnect_attempts = sys.mgr.reconnect_attempts := by
  simp only [check_schedule]
  split_ifs <;>
    first
      | rfl
      | exact start_tunnel_attempts _ _
      | exact stop_tunnel_attempts _

theorem schedule_reconnect_attempts_zero (m : Manager) :
    (schedule_reconnect m).reconnect_attempts = 0 → m.reconnect_attempts = 0 := by
  by_cases h : m.reconnect_attempts ≥ m.max_reconnect_attempts <;>
    simp [schedule_reconnect, add_connection_event, h]

theorem monitor_wake_attempts (sys : Sys) (i : Nat) (d : String) :
    (monitor_wake sys i d).mgr.reconnect_attempts = 0 →
      sys.mgr.reconnect_attempts = 0 ∨
      (monitor_wake sys i d).mgr.state = ConnectionState.CONNECTED := by
  simp only [monitor_wake, add_connection_event]
  repeat' split
  all_goals intro h
  all_goals
    first
      | exact Or.inl h
      | exact Or.inr rfl
      | (have h2 := schedule_reconnect_attempts_zero _ h
         exact Or.inl h2)

theorem monitor_resume_attempts (sys : Sys) (i : Nat) :
    (monitor_resume sys i).mgr.reconnect_attempts = 0 →
      sys.mgr.reconnect_attempts = 0 := by
  simp only [monitor_resume, add_connection_event, BandwidthMonitor.stop_monitoring]
  repeat' split
  all_goals intro h
  all_goals
    first
      | exact h
      | (have h2 := schedule_reconnect_attempts_zero _ h
         exact h2)

/-! ### Claim theorems -/

/-- C1: the claimed invariant — at most one SSH client process handle live at
any time over all `start()`/`stop()` interleavings — fails on the code.  In
the stale-monitor interleaving of `raceTrace` (attempt 1 connects, manual
`stop()` kills it, attempt 2 connects, and only then does attempt 1's monitor
thread return from `communicate()` and run the connection-lost branch, which
marks the controller Disconnected while attempt 2's process is live), a final
`start()` spawns a second live process: two of the three spawned processes
are running simultaneously. -/
theorem c1_race_two_live_handles :
    liveCount (run (initSys testSettings) raceTrace) = 2 ∧
    ((run (initSys testSettings) raceTrace).procs[1]?).map Proc.status =
      some ProcStatus.running ∧
    ((run (initSys testSettings) raceTrace).procs[2]?).map Proc.status =
      some ProcStatus.running := by
  decide

/-- C7: the claim that the exit of a process terminated by a manual `stop()`
is never treated as a failure fails on the code.  In the first six steps of
`raceTrace`, the monitor thread of the manually stopped first attempt returns
from `communicate()` only after a second attempt has reached Connected; it
then records a failure `Disconnected` ("Connection lost") event and a
`Reconnecting` event and arms the reconnect timer — all caused by observing
the exit of the process that `stop()` terminated. -/
theorem c7_stop_exit_treated_as_failure :
    (run (initSys testSettings) (raceTrace.take 6)).mgr.connection_history.map
        ConnectionEvent.event_type =
      ["Connecting", "Connected", "Disconnected", "Connecting", "Connected",
       "Disconnected", "Reconnecting"] ∧
    (run (initSys testSettings) (raceTrace.take 6)).mgr.connection_history.map
        ConnectionEvent.details =
      ["Attempting to establish tunnel", "Tunnel established successfully",
       "Tunnel stopped manually", "Attempting to establish tunnel",
       "Tunnel established successfully", "Connection lost. Exit code: None",
       "Attempt 1 scheduled in 5 seconds"] ∧
    (run (initSys testSettings) (raceTrace.take 6)).mgr.reconnect_timer = some 5000 := by
  decide

/-- C2 counterexample: after an observed connection loss the controller is
Disconnected but `tunnel_process` still holds the dead handle; a subsequent
`stop()` returns as a no-op, so the handle is not set to none — the claim
"after stop() returns ... tunnel_process is none" is false at this input. -/
theorem c2_counterexample :
    (run (initSys noReconnectSettings)
        [Step.start true, Step.monitorWake 0 "", Step.procExit 0 1,
         Step.monitorResume 0, Step.stop]).mgr.state =
      ConnectionState.DISCONNECTED ∧
    (run (initSys noReconnectSettings)
        [Step.start true, Step.monitorWake 0 "", Step.procExit 0 1,
         Step.monitorResume 0, Step.stop]).mgr.tunnel_process = some 0 := by
  decide

/-- C2 amended: after `stop()` the state is always Disconnected; the handle is
set to none whenever the prior state was not Disconnected; from Disconnected,
`stop()` is a no-op (so a stale handle of an already-exited process may
remain). -/
theorem c2_stop_postcondition (sys : Sys) :
    (stop_tunnel sys).mgr.state = ConnectionState.DISCONNECTED ∧
    (sys.mgr.state ≠ ConnectionState.DISCONNECTED →
      (stop_tunnel sys).mgr.tunnel_process = none) ∧
    (sys.mgr.state = ConnectionState.DISCONNECTED → stop_tunnel sys = sys) := by
  by_cases h : sys.mgr.state = ConnectionState.DISCONNECTED
  · exact ⟨by simp [stop_tunnel, h], fun hne => absurd h hne, fun _ => by simp [stop_tunnel, h]⟩
  · exact ⟨by simp [stop_tunnel, h, add_connection_event],
      fun _ => by simp [stop_tunnel, h, add_connection_event],
      fun heq => absurd heq h⟩

/-- C2 witness: from the concrete Connected system, `stop()` ends Disconnected
with the handle released. -/
theorem c2_witness :
    (stop_tunnel sysConnected).mgr.state = ConnectionState.DISCONNECTED ∧
    (stop_tunnel sysConnected).mgr.tunnel_process = none :=
  ⟨(c2_stop_postcondition sysConnected).1,
   (c2_stop_postcondition sysConnected).2.1 (by decide)⟩

/-- C3 counterexample: with an empty private-key path, `start()` from
Disconnected appends two events — `Connecting` then `Error` — not exactly one
Error event as claimed (and it passes through the Connecting state on the
way to Error). -/
theorem c3_counterexample :
    (start_tunnel (initSys invalidKeySettings) true).mgr.state =
      ConnectionState.ERROR ∧
    (start_tunnel (initSys invalidKeySettings) true).mgr.connection_history.map
        ConnectionEvent.event_type = ["Connecting", "Error"] ∧
    (start_tunnel (initSys invalidKeySettings) true).procs = [] := by
  decide

/-- C3 amended: with empty host, username or key path, `start()` from
Disconnected or Error first moves to Connecting and appends a `Connecting`
event, then moves to Error and appends an `Error` event — exactly two events —
and returns without spawning a process or creating a monitor thread. -/
theorem c3_invalid_config_two_events (sys : Sys) (ok : Bool)
    (hstate : sys.mgr.state = ConnectionState.DISCONNECTED ∨
      sys.mgr.state = ConnectionState.ERROR)
    (hinv : sys.mgr.settings.host = "" ∨ sys.mgr.settings.username = "" ∨
      sys.mgr.settings.key_path = "") :
    (start_tunnel sys ok).mgr.state = ConnectionState.ERROR ∧
    (start_tunnel sys ok).mgr.connection_history =
      sys.mgr.connection_history ++
        [{ event_type := "Connecting", details := "Attempting to establish tunnel" },
         { event_type := "Error", details := "Missing required connection settings" }] ∧
    (start_tunnel sys ok).procs = sys.procs ∧
    (start_tunnel sys ok).monitors = sys.monitors := by
  rcases hstate with h | h <;> rcases hinv with h2 | h2 | h2 <;>
    simp [start_tunnel, add_connection_event, h, h2]

/-- C3 witness: the amended statement evaluated at the concrete invalid
configuration. -/
theorem c3_witness :
    (start_tunnel (initSys invalidKeySettings) true).mgr.state =
      ConnectionState.ERROR :=
  (c3_invalid_config_two_events (initSys invalidKeySettings) true (Or.inl rfl)
    (Or.inr (Or.inr rfl))).1

/-- C4: for the 1-indexed attempt n ≤ maxAttempts, `schedule_reconnect`
increments the counter to n, arms the timer with
`baseDelaySeconds * 2^(n-1)` seconds (stored in milliseconds) and records a
`Reconnecting` event; at the ceiling it records an `Error` event, leaves the
counter and the timer untouched; and with no armed timer the timer-fire step
is a no-op, so no further automatic `start()` occurs. -/
theorem c4_backoff_and_exhaustion :
    (∀ (m : Manager) (n : Nat), 1 ≤ n → n ≤ m.max_reconnect_attempts →
      m.reconnect_attempts = n - 1 →
      (schedule_reconnect m).reconnect_attempts = n ∧
      (schedule_reconnect m).reconnect_timer =
        some (m.reconnect_delay * 2 ^ (n - 1) * 1000) ∧
      (schedule_reconnect m).connection_history =
        m.connection_history ++
          [{ event_type := "Reconnecting",
             details := "Attempt " ++ toString n ++ " scheduled in " ++
               toString (m.reconnect_delay * 2 ^ (n - 1)) ++ " seconds" }]) ∧
    (∀ m : Manager, m.max_reconnect_attempts ≤ m.reconnect_attempts →
      (schedule_reconnect m).reconnect_timer = m.reconnect_timer ∧
      (schedule_reconnect m).reconnect_attempts = m.reconnect_attempts ∧
      (schedule_reconnect m).connection_history =
        m.connection_history ++
          [{ event_type := "Error", details := "Maximum reconnection attempts reached" }]) ∧
    (∀ (sys : Sys) (ok : Bool), sys.mgr.reconnect_timer = none →
      step sys (Step.timerFire ok) = sys) := by
  refine ⟨?_, ?_, ?_⟩
  · intro m n h1 hmax hcur
    have hge : ¬ m.reconnect_attempts ≥ m.max_reconnect_attempts := by omega
    have hn : m.reconnect_attempts + 1 = n := by omega
    simp only [schedule_reconnect, if_neg hge, add_connection_event]
    rw [hn]
    exact ⟨rfl, rfl, rfl⟩
  · intro m h
    simp [schedule_reconnect, add_connection_event, h]
  · intro sys ok h
    simp [step, h]

/-- C4 witness: the concrete first attempt (counter 0, ceiling 5, base
delay 5) arms a 5000 ms timer; at the ceiling no timer is armed; with no
armed timer the fire step does nothing. -/
theorem c4_witness :
    (schedule_reconnect (initManager testSettings)).reconnect_attempts = 1 ∧
    (schedule_reconnect (initManager testSettings)).reconnect_timer =
      some ((initManager testSettings).reconnect_delay * 2 ^ (1 - 1) * 1000) ∧
    (schedule_reconnect maxedManager).reconnect_timer = maxedManager.reconnect_timer ∧
    step (initSys testSettings) (Step.timerFire true) = initSys testSettings := by
  have h1 := c4_backoff_and_exhaustion.1 (initManager testSettings) 1
    (by decide) (by decide) (by decide)
  have h2 := c4_backoff_and_exhaustion.2.1 maxedManager (by decide)
  have h3 := c4_backoff_and_exhaustion.2.2 (initSys testSettings) true (by decide)
  exact ⟨h1.1, h1.2.1, h2.1, h3⟩

/-- C5 counterexample: immediately after a valid `start()` — before the
supervisor has observed anything — the Bandwidth Monitor is already running
while the state is still Connecting, so it is not started "at that moment
(not earlier)" by the successful-establishment handler. -/
theorem c5_counterexample :
    sysConnecting.mgr.state = ConnectionState.CONNECTING ∧
    sysConnecting.mgr.bandwidth_monitor.running = true := by
  decide

/-- C5 amended: when the monitor thread observes the process still alive past
the grace window, the controller moves to Connected, records a `Connected`
event and resets the attempt counter to 0; the Bandwidth Monitor is untouched
by this handler — it was already started by `start()` at spawn time. -/
theorem c5_success_handler (sys : Sys) (i pid : Nat) (p : Proc) (d : String)
    (hmon : sys.monitors[i]? = some MonPhase.sleeping)
    (htp : sys.mgr.tunnel_process = some pid)
    (hp : sys.procs[pid]? = some p)
    (hrun : p.status = ProcStatus.running) :
    (monitor_wake sys i d).mgr.state = ConnectionState.CONNECTED ∧
    (monitor_wake sys i d).mgr.reconnect_attempts = 0 ∧
    (monitor_wake sys i d).mgr.connection_history =
      sys.mgr.connection_history ++
        [{ event_type := "Connected", details := "Tunnel established successfully" }] ∧
    (monitor_wake sys i d).mgr.bandwidth_monitor = sys.mgr.bandwidth_monitor := by
  simp [monitor_wake, hmon, htp, hp, hrun, add_connection_event]

/-- C5 witness: the amended statement at the concrete just-started system. -/
theorem c5_witness :
    (monitor_wake sysConnecting 0 "").mgr.state = ConnectionState.CONNECTED ∧
    (monitor_wake sysConnecting 0 "").mgr.bandwidth_monitor =
      sysConnecting.mgr.bandwidth_monitor := by
  have h := c5_success_handler sysConnecting 0 0 spawnedProc ""
    (by decide) (by decide) (by decide) (by decide)
  exact ⟨h.1, h.2.2.2⟩

/-- C6 counterexample: with the overnight window connect=22:00,
disconnect=08:00 and state Connected, the minute tick at 12:00 is not a
no-action: it calls `stop()` (the state becomes Disconnected and a new
history event is recorded), contradicting the claim's third part. -/
theorem c6_counterexample :
    sysOvernight.mgr.state = ConnectionState.CONNECTED ∧
    (check_schedule sysOvernight (12 * 60) true).mgr.state =
      ConnectionState.DISCONNECTED ∧
    (check_schedule sysOvernight (12 * 60) true).mgr.connection_history.length =
      sysOvernight.mgr.connection_history.length + 1 := by
  decide

/-- C6 amended: with the overnight window connect=22:00, disconnect=08:00,
the evaluator at 23:30 from Disconnected calls `start()`; at 09:00 from
Connected calls `stop()`; and at 12:00 from Connected it also calls `stop()`
(12:00 lies in the overnight disconnect window [08:00, 22:00)) rather than
taking no action. -/
theorem c6_overnight_schedule (sys : Sys)
    (hs : sys.mgr.settings.scheduled_connect = true)
    (hc : sys.mgr.settings.connect_time = 22 * 60)
    (hd : sys.mgr.settings.disconnect_time = 8 * 60) :
    (sys.mgr.state = ConnectionState.DISCONNECTED →
      ∀ ok, check_schedule sys (23 * 60 + 30) ok = start_tunnel sys ok) ∧
    (sys.mgr.state = ConnectionState.CONNECTED →
      ∀ ok, check_schedule sys (9 * 60) ok = stop_tunnel sys) ∧
    (sys.mgr.state = ConnectionState.CONNECTED →
      ∀ ok, check_schedule sys (12 * 60) ok = stop_tunnel sys) := by
  refine ⟨fun h ok => ?_, fun h ok => ?_, fun h ok => ?_⟩ <;>
    simp [check_schedule, hs, hc, hd, h]

/-- C6 witness: the amended statement at the concrete Connected overnight
system and tick 12:00. -/
theorem c6_witness :
    check_schedule sysOvernight (12 * 60) true = stop_tunnel sysOvernight :=
  (c6_overnight_schedule sysOvernight (by decide) (by decide) (by decide)).2.2
    (by decide) true

/-- C8: for a valid configuration, a successful `start()` spawns exactly one
process whose argument vector is the exact claimed list and whose environment
overrides set `SSH_ASKPASS` and `DISPLAY` to the empty string. -/
theorem c8_spawn_argv_env (sys : Sys)
    (hstate : sys.mgr.state = ConnectionState.DISCONNECTED ∨
      sys.mgr.state = ConnectionState.ERROR)
    (hh : sys.mgr.settings.host ≠ "")
    (hu : sys.mgr.settings.username ≠ "")
    (hk : sys.mgr.settings.key_path ≠ "") :
    (start_tunnel sys true).procs = sys.procs ++
      [{ argv := ["ssh",
          "-i", sys.mgr.settings.key_path,
          "-R", toString sys.mgr.settings.remote_port ++ ":localhost:" ++
            toString sys.mgr.settings.local_port,
          "-p", toString sys.mgr.settings.port,
          "-N",
          "-o", "ServerAliveInterval=30",
          "-o", "ServerAliveCountMax=3",
          "-o", "BatchMode=yes",
          "-o", "PasswordAuthentication=no",
          "-o", "StrictHostKeyChecking=accept-new",
          sys.mgr.settings.username ++ "@" ++ sys.mgr.settings.host],
         env_overrides := [("SSH_ASKPASS", ""), ("DISPLAY", "")],
         status := ProcStatus.running }] := by
  rcases hstate with h | h <;>
    simp [start_tunnel, add_connection_event, build_cmd, env_overrides, h, hh, hu, hk]

/-- C8 witness: with the concrete valid settings, exactly one process is
spawned. -/
theorem c8_witness :
    (start_tunnel (initSys testSettings) true).procs.length = 1 := by
  have h := c8_spawn_argv_env (initSys testSettings) (Or.inl rfl)
    (by decide) (by decide) (by decide)
  rw [h]
  rfl

/-- C9 counterexample: one bandwidth tick right after a valid `start()` emits
the non-zero pair (0.1, 0.1) while the state is Connecting, and after an
early failure a tick emits a non-zero pair while the state is Error — so the
non-zero signal is not confined to the Connected state. -/
theorem c9_counterexample :
    (run (initSys testSettings) [Step.start true, Step.bandwidthTick]).mgr.state =
      ConnectionState.CONNECTING ∧
    (run (initSys testSettings)
        [Step.start true, Step.bandwidthTick]).mgr.bandwidth_monitor.emitted =
      [(BandwidthMonitor.placeholderRate, BandwidthMonitor.placeholderRate)] ∧
    (run (initSys testSettings)
        [Step.start true, Step.procExit 0 1, Step.monitorWake 0 "err",
         Step.bandwidthTick]).mgr.state = ConnectionState.ERROR ∧
    (run (initSys testSettings)
        [Step.start true, Step.procExit 0 1, Step.monitorWake 0 "err",
         Step.bandwidthTick]).mgr.bandwidth_monitor.emitted =
      [(BandwidthMonitor.placeholderRate, BandwidthMonitor.placeholderRate)] ∧
    (BandwidthMonitor.placeholderRate, BandwidthMonitor.placeholderRate) ≠
      ((0 : ℚ), (0 : ℚ)) := by
  decide

/-- C9 amended: each tick emits the constant non-zero pair (0.1, 0.1) exactly
while the monitor's running flag is set and (0, 0) otherwise, and
`stop_monitoring` emits (0, 0) once and clears the flag; the flag is set by
`start()` at spawn time (state Connecting) and cleared only by `stop()` or
the connection-loss handler, so non-zero pairs are also emitted in states
other than Connected. -/
theorem c9_bandwidth_signal :
    (∀ bw : BandwidthMonitor, bw.running = true →
      bw.update_bandwidth.emitted = bw.emitted ++
        [(BandwidthMonitor.placeholderRate, BandwidthMonitor.placeholderRate)]) ∧
    (∀ bw : BandwidthMonitor, bw.running = false →
      bw.update_bandwidth.emitted = bw.emitted ++ [(0, 0)]) ∧
    (∀ bw : BandwidthMonitor,
      bw.stop_monitoring.emitted = bw.emitted ++ [(0, 0)] ∧
      bw.stop_monitoring.running = false) ∧
    (∀ sys : Sys,
      (sys.mgr.state = ConnectionState.DISCONNECTED ∨
        sys.mgr.state = ConnectionState.ERROR) →
      sys.mgr.settings.host ≠ "" → sys.mgr.settings.username ≠ "" →
      sys.mgr.settings.key_path ≠ "" →
      (start_tunnel sys true).mgr.bandwidth_monitor.running = true ∧
      (start_tunnel sys true).mgr.state = ConnectionState.CONNECTING) := by
  refine ⟨fun bw h => ?_, fun bw h => ?_, fun bw => ⟨rfl, rfl⟩, ?_⟩
  · simp [BandwidthMonitor.update_bandwidth, h]
  · simp [BandwidthMonitor.update_bandwidth, h]
  · intro sys hstate hh hu hk
    rcases hstate with h | h <;>
      simp [start_tunnel, add_connection_event, BandwidthMonitor.start_monitoring,
        h, hh, hu, hk]

/-- C9 witness: the amended statement at concrete monitors and the concrete
valid start. -/
theorem c9_witness :
    ({ running := true, timer_active := true, emitted := [] } :
        BandwidthMonitor).update_bandwidth.emitted =
      [] ++ [(BandwidthMonitor.placeholderRate, BandwidthMonitor.placeholderRate)] ∧
    ({ running := false, timer_active := false, emitted := [] } :
        BandwidthMonitor).update_bandwidth.emitted = [] ++ [(0, 0)] ∧
    (start_tunnel (initSys testSettings) true).mgr.bandwidth_monitor.running = true := by
  refine ⟨c9_bandwidth_signal.1 _ rfl, c9_bandwidth_signal.2.1 _ rfl, ?_⟩
  exact (c9_bandwidth_signal.2.2.2 (initSys testSettings) (Or.inl rfl)
    (by decide) (by decide) (by decide)).1

/-- C10: `start_tunnel` never modifies the reconnect-attempt counter; across
every step of the system, the counter becomes 0 from a non-zero value only
through a monitor-wake step whose result is the Connected state (the
successful-establishment handler); and at the attempt ceiling a monitor-wake
step arms no timer, so a failed manual attempt gets no automatic retries. -/
theorem c10_attempt_counter_frame :
    (∀ (sys : Sys) (ok : Bool),
      (start_tunnel sys ok).mgr.reconnect_attempts = sys.mgr.reconnect_attempts) ∧
    (∀ (sys : Sys) (e : Step), (step sys e).mgr.reconnect_attempts = 0 →
      sys.mgr.reconnect_attempts = 0 ∨
      ∃ i d, e = Step.monitorWake i d ∧
        (step sys e).mgr.state = ConnectionState.CONNECTED) ∧
    (∀ (sys : Sys) (i : Nat) (d : String),
      sys.mgr.max_reconnect_attempts ≤ sys.mgr.reconnect_attempts →
      (monitor_wake sys i d).mgr.reconnect_timer = sys.mgr.reconnect_timer) := by
  refine ⟨start_tunnel_attempts, ?_, ?_⟩
  · intro sys e h
    cases e with
    | start ok =>
      rw [step, start_tunnel_attempts] at h
      exact Or.inl h
    | stop =>
      rw [step, stop_tunnel_attempts] at h
      exact Or.inl h
    | monitorWake i d =>
      rw [step] at h ⊢
      rcases monitor_wake_attempts sys i d h with h0 | hc
      · exact Or.inl h0
      · exact Or.inr ⟨i, d, rfl, hc⟩
    | monitorResume i =>
      rw [step] at h
      exact Or.inl (monitor_resume_attempts sys i h)
    | timerFire ok =>
      rw [step] at h
      rcases htimer : sys.mgr.reconnect_timer with _ | ms
      · rw [htimer] at h
        exact Or.inl h
      · rw [htimer] at h
        unfold attempt_reconnect at h
        rw [start_tunnel_attempts] at h
        exact Or.inl h
    | scheduleTick now ok =>
      rw [step, check_schedule_attempts] at h
      exact Or.inl h
    | bandwidthTick =>
      rw [step] at h
      split_ifs at h
      · exact Or.inl h
      · exact Or.inl h
    | procExit pid code =>
      rw [step] at h
      rcases hp : sys.procs[pid]? with _ | p <;> simp only [hp] at h
      · exact Or.inl h
      · split_ifs at h
        · exact Or.inl h
        · exact Or.inl h
  · intro sys i d hmax
    simp only [monitor_wake, add_connection_event]
    repeat' split
    all_goals
      first
        | rfl
        | (simp [schedule_reconnect, add_connection_event, hmax])

/-- C10 witness: the frame facts at concrete inputs — a valid `start()` from
the fresh system, the no-op `stop` step, and a monitor wake at the attempt
ceiling. -/
theorem c10_witness :
    (start_tunnel (initSys testSettings) true).mgr.reconnect_attempts =
      (initSys testSettings).mgr.reconnect_attempts ∧
    ((initSys testSettings).mgr.reconnect_attempts = 0 ∨
      ∃ i d, Step.stop = Step.monitorWake i d ∧
        (step (initSys testSettings) Step.stop).mgr.state =
          ConnectionState.CONNECTED) ∧
    (monitor_wake maxedSys 0 "").mgr.reconnect_timer = maxedSys.mgr.reconnect_timer :=
  ⟨c10_attempt_counter_frame.1 (initSys testSettings) true,
   c10_attempt_counter_frame.2.1 (initSys testSettings) Step.stop (by decide),
   c10_attempt_counter_frame.2.2 maxedSys 0 "" (by decide)⟩

end SSHTunnel
